import Mathlib

/-!
Shallow embedding of the StepWize backend's task mutation and AI edit/history
engine (src/main.py, schemas in src/schemas.py).

Modelling conventions:
* Python strings are `List Char` (so that `lower`, slicing, substring tests and
  `strip` can be modelled character by character); string literals are written
  `"...".toList`.
* Python ints are `Int` (unbounded, may be negative).
* Timestamps (`datetime.now(timezone.utc)` and its `isoformat` string) are
  opaque; we model them as `Nat` values passed in by the caller.
* The Mongo document for one task id is an `Option Task`: `none` when
  `find_one` returns no document.  `update_one`/`delete_one` on a missing id
  are no-ops, matching pymongo.  Each endpoint returns the new store contents
  together with its HTTP response, `Except PyError r`; an uncaught Python
  exception (`HTTPException`, `IndexError`) is the `.error` case and performs
  no write.
* `oid` validation of malformed id strings (400 "Invalid id") is outside the
  model: a task id is modelled directly by the `Option Task` it resolves to.
* pydantic models with `Optional` fields dumped with `exclude_unset=True` are
  structures of `Option` fields, `none` meaning "not supplied".
-/

namespace StepWize

/-- Errors an endpoint can raise: `HTTPException(status_code, detail)` or an
uncaught Python `IndexError` (from `history[cursor]` on a bad index). -/
inductive PyError where
  | http (status_code : Nat) (detail : List Char)
  | indexError
deriving DecidableEq, Repr

/-- Subtask document, from `SubTask` in src/schemas.py / `SubTaskModel` in
src/main.py: emoji, title, estimatedMinutes, completed. -/
structure SubTask where
  emoji : List Char
  title : List Char
  estimatedMinutes : Int
  completed : Bool
deriving DecidableEq, Repr

/-- Timer status literal `"idle" | "running" | "paused"`. -/
inductive TimerStatus where
  | idle
  | running
  | paused
deriving DecidableEq, Repr

/-- Embedded timer state, from `TimerSession` in src/schemas.py.
`startedAt` (an ISO string in the source) is an opaque timestamp. -/
structure TimerSession where
  status : TimerStatus
  startedAt : Option Nat
  elapsedSeconds : Int
  currentSubtaskIndex : Option Int
deriving DecidableEq, Repr

/-- An AI history entry: the snapshot dict
`{k: task[k] for k in ["title", "description", "estimatedMinutes", "emoji", "subtasks"]}`
built in `ai_edit_task` (all five keys are always present on a task document
created through this API). -/
structure Snapshot where
  title : List Char
  description : List Char
  estimatedMinutes : Int
  emoji : List Char
  subtasks : List SubTask
deriving DecidableEq, Repr

/-- Task document, from `Task` in src/schemas.py plus the fields `create_task`
adds (`created_at`, `updated_at`). -/
structure Task where
  userId : List Char
  title : List Char
  description : List Char
  estimatedMinutes : Int
  emoji : List Char
  completed : Bool
  voiceReminder : Bool
  subtasks : List SubTask
  timerSession : TimerSession
  aiHistory : List Snapshot
  aiCursor : Int
  created_at : Nat
  updated_at : Nat
deriving DecidableEq, Repr

/-- The reset timer value
`{"status": "idle", "startedAt": None, "elapsedSeconds": 0, "currentSubtaskIndex": None}`. -/
def resetTimer : TimerSession :=
  { status := .idle, startedAt := none, elapsedSeconds := 0, currentSubtaskIndex := none }

/-- The snapshot of a task's editable fields taken by `ai_edit_task`. -/
def snapshotOf (t : Task) : Snapshot :=
  { title := t.title, description := t.description,
    estimatedMinutes := t.estimatedMinutes, emoji := t.emoji, subtasks := t.subtasks }

/-! ## Python primitives -/

/-- Python list slice `l[:stop]` (stop may be negative, counting from the
end; out-of-range stops clamp). -/
def pyTakeTo (l : List α) (stop : Int) : List α :=
  l.take (if stop < 0 then ((l.length : Int) + stop).toNat else stop.toNat)

/-- Python list indexing `l[i]` (negative indices count from the end);
`none` models an `IndexError`. -/
def pyIndex (l : List α) (i : Int) : Option α :=
  let j := if i < 0 then (l.length : Int) + i else i
  if j < 0 then none else l[j.toNat]?

/-- Whitespace as recognized by `str.strip()` (the ASCII part, which covers
every string this program builds). -/
def isPySpace (c : Char) : Bool :=
  c == ' ' || c == '\t' || c == '\n' || c == '\r' || c == '\x0b' || c == '\x0c'

/-- Python `s.strip()`: drop leading and trailing whitespace. -/
def pyStrip (l : List Char) : List Char :=
  ((l.dropWhile isPySpace).reverse.dropWhile isPySpace).reverse

/-- Python substring test `needle in hay`. -/
def inStr (needle hay : List Char) : Bool :=
  decide (needle <:+: hay)

/-! ## Create / Patch / Delete / ToggleSubtask -/

/-- Request body of `POST /tasks` (`TaskCreate` in src/main.py). -/
structure TaskCreate where
  userId : List Char
  title : List Char
  description : List Char
  estimatedMinutes : Int
  emoji : List Char
  voiceReminder : Bool
  subtasks : List SubTask
deriving DecidableEq, Repr

/-- The pydantic `Field` bounds checked on a `TaskCreate` body
(`ge=1, le=1440` for the task, `ge=1, le=480` per subtask). -/
def TaskCreate.valid (p : TaskCreate) : Prop :=
  1 ≤ p.estimatedMinutes ∧ p.estimatedMinutes ≤ 1440 ∧
    ∀ s ∈ p.subtasks, 1 ≤ s.estimatedMinutes ∧ s.estimatedMinutes ≤ 480

instance (p : TaskCreate) : Decidable p.valid := by
  unfold TaskCreate.valid; infer_instance

/-- `create_task` (POST /tasks): payload fields plus the defaulted state
`completed=False`, reset timerSession, `aiHistory=[]`, `aiCursor=-1`, both
timestamps set to now.  The insert always succeeds, so the new document is
returned directly. -/
def create_task (p : TaskCreate) (now : Nat) : Task :=
  { userId := p.userId, title := p.title, description := p.description,
    estimatedMinutes := p.estimatedMinutes, emoji := p.emoji,
    completed := false, voiceReminder := p.voiceReminder, subtasks := p.subtasks,
    timerSession := resetTimer, aiHistory := [], aiCursor := -1,
    created_at := now, updated_at := now }

/-- Request body of `PATCH /tasks/{task_id}` (`TaskUpdate` in src/main.py);
`none` = field not supplied (pydantic `exclude_unset`). -/
structure TaskUpdate where
  title : Option (List Char)
  description : Option (List Char)
  estimatedMinutes : Option Int
  emoji : Option (List Char)
  completed : Option Bool
  voiceReminder : Option Bool
  subtasks : Option (List SubTask)
deriving DecidableEq, Repr

/-- `if not updates:` — the dumped update dict is empty. -/
def TaskUpdate.isEmptyUpdate (p : TaskUpdate) : Bool :=
  p.title.isNone && p.description.isNone && p.estimatedMinutes.isNone &&
    p.emoji.isNone && p.completed.isNone && p.voiceReminder.isNone && p.subtasks.isNone

/-- The `$set` of the supplied fields plus `updated_at`. -/
def applyPatch (t : Task) (p : TaskUpdate) (now : Nat) : Task :=
  { t with
    title := p.title.getD t.title,
    description := p.description.getD t.description,
    estimatedMinutes := p.estimatedMinutes.getD t.estimatedMinutes,
    emoji := p.emoji.getD t.emoji,
    completed := p.completed.getD t.completed,
    voiceReminder := p.voiceReminder.getD t.voiceReminder,
    subtasks := p.subtasks.getD t.subtasks,
    updated_at := now }

/-- `update_task` (PATCH /tasks/{task_id}).  Note the source raises no 404:
with an empty update dict it returns `serialize(find_one(...))` directly
(which is `None` for a missing task), otherwise it runs `update_one` (a no-op
on a missing id) and again returns the re-read document, `None` if missing. -/
def update_task (store : Option Task) (p : TaskUpdate) (now : Nat) :
    Option Task × Except PyError (Option Task) :=
  if p.isEmptyUpdate then
    (store, .ok store)
  else
    let store' := store.map (fun t => applyPatch t p now)
    (store', .ok store')

/-- Flip `completed` of the subtask at a (valid) position, leaving the rest
of the list untouched: `subs[index]["completed"] = not subs[index].get("completed", False)`. -/
def toggleCompletedAt : List SubTask → Nat → List SubTask
  | [], _ => []
  | s :: rest, 0 => { s with completed := !s.completed } :: rest
  | s :: rest, n + 1 => s :: toggleCompletedAt rest n

/-- `toggle_subtask` (POST /tasks/{task_id}/subtasks/{index}/toggle):
404 "Task not found" when the task is missing, 400 "Invalid subtask index"
when `index < 0 or index >= len(subs)`, otherwise flip and persist. -/
def toggle_subtask (store : Option Task) (index : Int) (now : Nat) :
    Option Task × Except PyError Task :=
  match store with
  | none => (none, .error (.http 404 "Task not found".toList))
  | some task =>
    if index < 0 ∨ (task.subtasks.length : Int) ≤ index then
      (some task, .error (.http 400 "Invalid subtask index".toList))
    else
      let t' := { task with subtasks := toggleCompletedAt task.subtasks index.toNat,
                            updated_at := now }
      (some t', .ok t')

/-! ## Timer endpoints -/

/-- `timer_start` (POST /tasks/{task_id}/timer/start): `$set` of the nested
keys `timerSession.status = "running"`, `timerSession.startedAt = now`,
`timerSession.currentSubtaskIndex = subtaskIndex` and `updated_at`
(`elapsedSeconds` is left untouched).  No 404: on a missing id the update is
a no-op and the re-read `None` is returned. -/
def timer_start (store : Option Task) (subtaskIndex : Option Int) (now : Nat) :
    Option Task × Except PyError (Option Task) :=
  let store' := store.map (fun t =>
    { t with timerSession := { t.timerSession with
                status := .running, startedAt := some now,
                currentSubtaskIndex := subtaskIndex },
             updated_at := now })
  (store', .ok store')

/-- `timer_pause` (POST /tasks/{task_id}/timer/pause): `$set` of
`timerSession.status = "paused"` and the caller-supplied
`timerSession.elapsedSeconds`, plus `updated_at`. -/
def timer_pause (store : Option Task) (elapsedSeconds : Int) (now : Nat) :
    Option Task × Except PyError (Option Task) :=
  let store' := store.map (fun t =>
    { t with timerSession := { t.timerSession with
                status := .paused, elapsedSeconds := elapsedSeconds },
             updated_at := now })
  (store', .ok store')

/-- `timer_stop` (POST /tasks/{task_id}/timer/stop): `$set` of the whole
`timerSession` to the reset value, plus `updated_at`. -/
def timer_stop (store : Option Task) (now : Nat) :
    Option Task × Except PyError (Option Task) :=
  let store' := store.map (fun t =>
    { t with timerSession := resetTimer, updated_at := now })
  (store', .ok store')

/-! ## AI edit / undo / redo engine -/

/-- `"simpler" in prompt or "shorter" in prompt` (on the lowered prompt). -/
def kwSimpler (p : List Char) : Bool :=
  inStr "simpler".toList p || inStr "shorter".toList p

/-- `"more details" in prompt or "expand" in prompt`. -/
def kwExpand (p : List Char) : Bool :=
  inStr "more details".toList p || inStr "expand".toList p

/-- `"prioritize" in prompt`. -/
def kwPrioritize (p : List Char) : Bool :=
  inStr "prioritize".toList p

/-- `"emoji" in prompt`. -/
def kwEmoji (p : List Char) : Bool :=
  inStr "emoji".toList p

/-- Does the prompt (after `payload.prompt.lower()`) fire at least one of the
four keyword rules, i.e. is the `updates` dict non-empty before the
no-keyword fallback? -/
def anyKeyword (prompt : List Char) : Bool :=
  let p := prompt.map Char.toLower
  kwSimpler p || kwExpand p || kwPrioritize p || kwEmoji p

/-- The fixed suffix appended by the "more details"/"expand" rule. -/
def moreSpecificsSuffix : List Char :=
  "\n\nMore specifics: steps, tools, and a clear finish line.".toList

/-- The fixed suffix appended when no keyword matches. -/
def tunedSuffix : List Char := "\n\nTuned for clarity.".toList

/-- Stable insert for an ascending sort on `estimatedMinutes`: the new
element goes in front of the first element with a key `≥` its own, so
elements that arrive earlier stay in front of later ties. -/
def insertByMinutes (s : SubTask) : List SubTask → List SubTask
  | [] => [s]
  | t :: ts =>
    if s.estimatedMinutes ≤ t.estimatedMinutes then s :: t :: ts
    else t :: insertByMinutes s ts

/-- Python's stable `sorted(subs, key=lambda s: s.get("estimatedMinutes", 5))`
as a stable insertion sort (every subtask document carries the key). -/
def sortByMinutes : List SubTask → List SubTask
  | [] => []
  | s :: rest => insertByMinutes s (sortByMinutes rest)

/-- The body of `ai_edit_task` once the task has been loaded: snapshot the
editable fields, truncate history to the cursor and append the snapshot,
derive the field updates from the lowered prompt (independent `if`s writing
into one `updates` dict, so the "more details" rule overwrites the
description written by the "simpler" rule, and the no-keyword fallback fires
only when the dict is still empty), then `$set` everything plus the new
history, the cursor `len(new_history) - 1` and `updated_at`. -/
def editTaskCore (task : Task) (prompt : List Char) (now : Nat) : Task :=
  let snapshot := snapshotOf task
  let new_history := pyTakeTo task.aiHistory (task.aiCursor + 1) ++ [snapshot]
  let p := prompt.map Char.toLower
  let d0 := task.description
  let description' :=
    if kwExpand p then pyStrip (d0 ++ moreSpecificsSuffix)
    else if kwSimpler p then
      (if 120 < d0.length then d0.take 120 ++ "...".toList else d0)
    else if kwPrioritize p || kwEmoji p then d0
    else pyStrip (d0 ++ tunedSuffix)
  let subtasks' := if kwPrioritize p then sortByMinutes task.subtasks else task.subtasks
  let emoji' := if kwEmoji p then "✨".toList else task.emoji
  { task with
    description := description', subtasks := subtasks', emoji := emoji',
    aiHistory := new_history, aiCursor := (new_history.length : Int) - 1,
    updated_at := now }

/-- `ai_edit_task` (POST /ai/edit): 404 "Task not found" when the id resolves
to no document, otherwise apply `editTaskCore` and return the re-read task. -/
def ai_edit_task (store : Option Task) (prompt : List Char) (now : Nat) :
    Option Task × Except PyError Task :=
  match store with
  | none => (none, .error (.http 404 "Task not found".toList))
  | some task =>
    let t' := editTaskCore task prompt now
    (some t', .ok t')

/-- The `$set` performed by undo/redo: `{**snap, "aiCursor": c, "updated_at": now}` —
the five snapshotted fields, the new cursor and the timestamp; `aiHistory` is
not written. -/
def restoreSnap (t : Task) (s : Snapshot) (newCursor : Int) (now : Nat) : Task :=
  { t with title := s.title, description := s.description,
           estimatedMinutes := s.estimatedMinutes, emoji := s.emoji,
           subtasks := s.subtasks, aiCursor := newCursor, updated_at := now }

/-- `ai_undo` (POST /ai/undo): 404 when the task is missing; a no-op
returning the task unchanged when `cursor < 0`; otherwise restore
`history[cursor]` and decrement the cursor (`history[cursor]` raising
`IndexError` is the `.error .indexError` case, unreachable from states
satisfying the cursor invariant). -/
def ai_undo (store : Option Task) (now : Nat) :
    Option Task × Except PyError Task :=
  match store with
  | none => (none, .error (.http 404 "Task not found".toList))
  | some task =>
    if task.aiCursor < 0 then (some task, .ok task)
    else
      match pyIndex task.aiHistory task.aiCursor with
      | none => (some task, .error .indexError)
      | some snap =>
        let t' := restoreSnap task snap (task.aiCursor - 1) now
        (some t', .ok t')

/-- `ai_redo` (POST /ai/redo): 404 when the task is missing; a no-op when
`cursor + 1 >= len(history)`; otherwise restore `history[cursor + 1]` and
increment the cursor. -/
def ai_redo (store : Option Task) (now : Nat) :
    Option Task × Except PyError Task :=
  match store with
  | none => (none, .error (.http 404 "Task not found".toList))
  | some task =>
    if (task.aiHistory.length : Int) ≤ task.aiCursor + 1 then (some task, .ok task)
    else
      match pyIndex task.aiHistory (task.aiCursor + 1) with
      | none => (some task, .error .indexError)
      | some snap =>
        let t' := restoreSnap task snap (task.aiCursor + 1) now
        (some t', .ok t')

/-! ## Sequences of Edit/Undo/Redo calls -/

/-- One HTTP call against the AI history engine. -/
inductive HistOp where
  | edit (prompt : List Char) (now : Nat)
  | undo (now : Nat)
  | redo (now : Nat)
deriving DecidableEq, Repr

/-- The store contents after one call (a call that raises performs no
write, so the store is unchanged). -/
def applyHistOp (store : Option Task) : HistOp → Option Task
  | .edit p now => (ai_edit_task store p now).fst
  | .undo now => (ai_undo store now).fst
  | .redo now => (ai_redo store now).fst

/-- The store contents after a sequence of calls. -/
def runHistOps (store : Option Task) : List HistOp → Option Task
  | [] => store
  | op :: ops => runHistOps (applyHistOp store op) ops

/-- The cursor invariant `-1 ≤ aiCursor ≤ len(aiHistory) - 1`. -/
def cursorInv (t : Task) : Prop :=
  -1 ≤ t.aiCursor ∧ t.aiCursor ≤ (t.aiHistory.length : Int) - 1

instance (t : Task) : Decidable (cursorInv t) := by
  unfold cursorInv; infer_instance

/-- The cursor invariant read through the store (`find_one` result). -/
def cursorInvHolds : Option Task → Prop
  | none => True
  | some t => cursorInv t

instance : (s : Option Task) → Decidable (cursorInvHolds s)
  | none => .isTrue trivial
  | some t => inferInstanceAs (Decidable (cursorInv t))

/-- The fixed text of the no-keyword fallback (without the separating blank
line), used to state that it ends up as a suffix of the description. -/
def tunedCore : List Char := "Tuned for clarity.".toList

/-! ## Concrete sample data for exercising the theorems -/

/-- A concrete stored task: three subtasks, one prior history entry. -/
def sampleTask : Task :=
  { userId := "u1".toList, title := "Write report".toList,
    description := "Draft the quarterly report".toList,
    estimatedMinutes := 15, emoji := "🧠".toList, completed := false,
    voiceReminder := false,
    subtasks := [{ emoji := "✅".toList, title := "outline".toList, estimatedMinutes := 20, completed := false },
                 { emoji := "✅".toList, title := "draft".toList, estimatedMinutes := 5, completed := true },
                 { emoji := "✅".toList, title := "review".toList, estimatedMinutes := 10, completed := false }],
    timerSession := resetTimer, aiHistory := [], aiCursor := -1,
    created_at := 0, updated_at := 0 }

/-- A concrete freshly created task (aiHistory empty, cursor `-1`). -/
def freshTask : Task := sampleTask

/-- A concrete call sequence: one edit, an undo, a redo. -/
def sampleOps : List HistOp :=
  [.edit "make it simpler".toList 1, .undo 2, .redo 3]

/-- A patch that supplies no recognized fields. -/
def emptyPatch : TaskUpdate :=
  { title := none, description := none, estimatedMinutes := none, emoji := none,
    completed := none, voiceReminder := none, subtasks := none }

/-- A patch that supplies one field (used against a missing task id). -/
def titlePatch : TaskUpdate :=
  { title := some "New".toList, description := none, estimatedMinutes := none,
    emoji := none, completed := none, voiceReminder := none, subtasks := none }

/-- A concrete valid create payload. -/
def sampleCreate : TaskCreate :=
  { userId := "u1".toList, title := "Plan trip".toList, description := "".toList,
    estimatedMinutes := 30, emoji := "🧠".toList, voiceReminder := false,
    subtasks := [{ emoji := "✅".toList, title := "book".toList, estimatedMinutes := 5, completed := false }] }

/-! ## Basic lemmas about the Python primitives -/

theorem pyTakeTo_of_nonneg (l : List α) (stop : Int) (h : 0 ≤ stop) :
    pyTakeTo l stop = l.take stop.toNat := by
  unfold pyTakeTo
  rw [if_neg (by omega)]

theorem pyTakeTo_length_self (l : List α) : pyTakeTo l (l.length : Int) = l := by
  rw [pyTakeTo_of_nonneg _ _ (by omega)]
  simp

theorem pyIndex_of_nonneg (l : List α) (i : Int) (h : 0 ≤ i) :
    pyIndex l i = l[i.toNat]? := by
  unfold pyIndex
  simp only [if_neg (by omega : ¬ i < 0)]

theorem pyIndex_of_lt (l : List α) (i : Int) (h0 : 0 ≤ i) (h : i < (l.length : Int)) :
    pyIndex l i = some (l.get ⟨i.toNat, by omega⟩) := by
  rw [pyIndex_of_nonneg l i h0]
  rw [List.getElem?_eq_getElem (by omega)]
  rfl

/-! ## Lemmas about a single Edit/Undo/Redo call -/

theorem editTaskCore_aiHistory (t : Task) (p : List Char) (n : Nat) :
    (editTaskCore t p n).aiHistory = pyTakeTo t.aiHistory (t.aiCursor + 1) ++ [snapshotOf t] :=
  rfl

theorem editTaskCore_aiCursor (t : Task) (p : List Char) (n : Nat) :
    (editTaskCore t p n).aiCursor = ((editTaskCore t p n).aiHistory.length : Int) - 1 :=
  rfl

theorem cursorInv_editTaskCore (t : Task) (p : List Char) (n : Nat) :
    cursorInv (editTaskCore t p n) := by
  have hlen : 1 ≤ (editTaskCore t p n).aiHistory.length := by
    rw [editTaskCore_aiHistory]; simp
  constructor
  · rw [editTaskCore_aiCursor]; omega
  · rw [editTaskCore_aiCursor]

theorem restoreSnap_aiHistory (t : Task) (s : Snapshot) (c : Int) (n : Nat) :
    (restoreSnap t s c n).aiHistory = t.aiHistory := rfl

theorem restoreSnap_aiCursor (t : Task) (s : Snapshot) (c : Int) (n : Nat) :
    (restoreSnap t s c n).aiCursor = c := rfl

theorem snapshotOf_restoreSnap (t : Task) (s : Snapshot) (c : Int) (n : Nat) :
    snapshotOf (restoreSnap t s c n) = s := rfl

/-- From a state satisfying the cursor invariant, any single call leaves a
stored task that again satisfies the invariant. -/
theorem applyHistOp_some_inv (t : Task) (op : HistOp) (h : cursorInv t) :
    ∃ t', applyHistOp (some t) op = some t' ∧ cursorInv t' := by
  obtain ⟨h1, h2⟩ := h
  cases op with
  | edit p n =>
      exact ⟨editTaskCore t p n, rfl, cursorInv_editTaskCore t p n⟩
  | undo n =>
      by_cases hc : t.aiCursor < 0
      · exact ⟨t, by simp [applyHistOp, ai_undo, hc], h1, h2⟩
      · cases hidx : pyIndex t.aiHistory t.aiCursor with
        | none => exact ⟨t, by simp [applyHistOp, ai_undo, hc, hidx], h1, h2⟩
        | some snap =>
            refine ⟨restoreSnap t snap (t.aiCursor - 1) n, ?_, ?_, ?_⟩
            · simp [applyHistOp, ai_undo, hc, hidx]
            · rw [restoreSnap_aiCursor]; omega
            · rw [restoreSnap_aiCursor, restoreSnap_aiHistory]; omega
  | redo n =>
      by_cases hc : (t.aiHistory.length : Int) ≤ t.aiCursor + 1
      · exact ⟨t, by simp [applyHistOp, ai_redo, hc], h1, h2⟩
      · cases hidx : pyIndex t.aiHistory (t.aiCursor + 1) with
        | none => exact ⟨t, by simp [applyHistOp, ai_redo, hc, hidx], h1, h2⟩
        | some snap =>
            refine ⟨restoreSnap t snap (t.aiCursor + 1) n, ?_, ?_, ?_⟩
            · simp [applyHistOp, ai_redo, hc, hidx]
            · rw [restoreSnap_aiCursor]; omega
            · rw [restoreSnap_aiCursor, restoreSnap_aiHistory]; omega

theorem runHistOps_some_inv (ops : List HistOp) (t : Task) (h : cursorInv t) :
    ∃ t', runHistOps (some t) ops = some t' ∧ cursorInv t' := by
  induction ops generalizing t with
  | nil => exact ⟨t, rfl, h⟩
  | cons op ops ih =>
      obtain ⟨t1, hstep, hinv⟩ := applyHistOp_some_inv t op h
      obtain ⟨t', hrun, hinv'⟩ := ih t1 hinv
      refine ⟨t', ?_, hinv'⟩
      simp only [runHistOps, hstep]
      exact hrun

/-! ## The no-keyword fallback of Edit -/

theorem editTaskCore_description_noKw (t : Task) (prompt : List Char) (n : Nat)
    (h : anyKeyword prompt = false) :
    (editTaskCore t prompt n).description = pyStrip (t.description ++ tunedSuffix) := by
  simp only [anyKeyword, Bool.or_eq_false_iff] at h
  obtain ⟨⟨⟨hs, he⟩, hp⟩, hm⟩ := h
  unfold editTaskCore
  simp [hs, he, hp, hm]

theorem dropWhile_append_suffix (p : Char → Bool) (a : List Char) (c : Char) (cs : List Char)
    (hc : p c = false) : c :: cs <:+ List.dropWhile p (a ++ c :: cs) := by
  induction a with
  | nil =>
      rw [List.nil_append, List.dropWhile_cons, if_neg (by simp [hc])]
  | cons x xs ih =>
      rw [List.cons_append, List.dropWhile_cons]
      by_cases hx : p x = true
      · rw [if_pos hx]; exact ih
      · rw [if_neg hx]
        exact ⟨x :: xs, by simp⟩

theorem dropWhile_eq_self_of_head (p : Char → Bool) (c : Char) (cs : List Char)
    (hc : p c = false) : List.dropWhile p (c :: cs) = c :: cs := by
  rw [List.dropWhile_cons, if_neg (by simp [hc])]

/-- Whatever the old description was, the stripped concatenation built by the
no-keyword fallback still ends in the fixed "Tuned for clarity." text. -/
theorem tuned_suffix_pyStrip (d : List Char) :
    tunedCore <:+ pyStrip (d ++ tunedSuffix) := by
  have h1 : d ++ tunedSuffix = (d ++ ['\n', '\n']) ++ 'T' :: "uned for clarity.".toList := by
    rw [List.append_assoc]
    congr 1
  have h2 : 'T' :: "uned for clarity.".toList = tunedCore := by decide
  have hstep : tunedCore <:+ List.dropWhile isPySpace (d ++ tunedSuffix) := by
    rw [h1, ← h2]
    exact dropWhile_append_suffix isPySpace (d ++ ['\n', '\n']) 'T' _ (by decide)
  obtain ⟨u, hu⟩ := hstep
  unfold pyStrip
  rw [← hu, List.reverse_append]
  have h3 : tunedCore.reverse = '.' :: "ytiralc rof denuT".toList := by decide
  rw [h3, List.cons_append, dropWhile_eq_self_of_head isPySpace '.' _ (by decide),
    ← List.cons_append, ← h3, ← List.reverse_append, List.reverse_reverse]
  exact ⟨u, rfl⟩

/-! ## Sequencing lemmas for Edit-then-Undo -/

theorem runHistOps_append (s : Option Task) (a b : List HistOp) :
    runHistOps s (a ++ b) = runHistOps (runHistOps s a) b := by
  induction a generalizing s with
  | nil => rfl
  | cons op ops ih =>
      simp only [List.cons_append, runHistOps]
      exact ih _

theorem pyTakeTo_editTaskCore (t : Task) (p : List Char) (n : Nat) :
    pyTakeTo (editTaskCore t p n).aiHistory ((editTaskCore t p n).aiCursor + 1) =
      (editTaskCore t p n).aiHistory := by
  rw [editTaskCore_aiCursor]
  have h : ((editTaskCore t p n).aiHistory.length : Int) - 1 + 1 =
      ((editTaskCore t p n).aiHistory.length : Int) := by ring
  rw [h]
  exact pyTakeTo_length_self _

/-- After `n ≥ 1` consecutive Edit calls the stored history is the truncated
original history followed by the `n` snapshots taken along the way — the
first of which is the snapshot of the starting task — and the cursor points
at the last entry. -/
theorem runHistOps_edits (es : List (List Char × Nat)) (t : Task) (h : 1 ≤ es.length) :
    ∃ t' snaps, runHistOps (some t) (es.map (fun e => HistOp.edit e.1 e.2)) = some t' ∧
      t'.aiHistory = pyTakeTo t.aiHistory (t.aiCursor + 1) ++ snaps ∧
      snaps.head? = some (snapshotOf t) ∧
      snaps.length = es.length ∧
      t'.aiCursor = (t'.aiHistory.length : Int) - 1 := by
  induction es generalizing t with
  | nil => simp at h
  | cons e rest ih =>
      by_cases hrest : rest = []
      · subst hrest
        exact ⟨editTaskCore t e.1 e.2, [snapshotOf t], rfl,
          editTaskCore_aiHistory t e.1 e.2, rfl, rfl, editTaskCore_aiCursor t e.1 e.2⟩
      · have h1 : 1 ≤ rest.length := by
          cases rest with
          | nil => exact absurd rfl hrest
          | cons a b => simp
        obtain ⟨t', snaps', hrun, hhist, hhead, hlen, hcur⟩ := ih (editTaskCore t e.1 e.2) h1
        refine ⟨t', snapshotOf t :: snaps', ?_, ?_, rfl, by simp [hlen], hcur⟩
        · simpa only [List.map_cons, runHistOps, applyHistOp, ai_edit_task] using hrun
        · rw [hhist, pyTakeTo_editTaskCore, editTaskCore_aiHistory, List.append_assoc]
          rfl

/-- Undoing `k` times from cursor `c` (with `1 ≤ k ≤ c + 1 ≤ len(history)`)
leaves the history untouched, moves the cursor to `c - k`, and leaves the
editable fields equal to the snapshot at position `c + 1 - k`. -/
theorem runHistOps_undos (us : List Nat) (t : Task) (c : Int)
    (hc : t.aiCursor = c) (h1 : 1 ≤ us.length) (h2 : (us.length : Int) ≤ c + 1)
    (h3 : c < (t.aiHistory.length : Int)) :
    ∃ t' s, runHistOps (some t) (us.map HistOp.undo) = some t' ∧
      pyIndex t.aiHistory (c + 1 - (us.length : Int)) = some s ∧
      snapshotOf t' = s ∧ t'.aiHistory = t.aiHistory ∧
      t'.aiCursor = c - (us.length : Int) := by
  induction us generalizing t c with
  | nil => simp at h1
  | cons n rest ih =>
      have hlc : ((n :: rest).length : Int) = (rest.length : Int) + 1 := by
        simp only [List.length_cons]
        push_cast
        ring
      have hc0 : 0 ≤ c := by omega
      have hcn : c.toNat < t.aiHistory.length := by omega
      have hidx := pyIndex_of_lt t.aiHistory c hc0 h3
      have hstep : applyHistOp (some t) (.undo n) =
          some (restoreSnap t (t.aiHistory.get ⟨c.toNat, hcn⟩) (c - 1) n) := by
        simp [applyHistOp, ai_undo, hc, (show ¬ c < 0 by omega), hidx]
      by_cases hrest : rest = []
      · subst hrest
        refine ⟨restoreSnap t (t.aiHistory.get ⟨c.toNat, hcn⟩) (c - 1) n,
          t.aiHistory.get ⟨c.toNat, hcn⟩, ?_, ?_, rfl, rfl, ?_⟩
        · simp only [List.map_cons, List.map_nil, runHistOps, hstep]
        · have he : c + 1 - (([n] : List Nat).length : Int) = c := by simp
          rw [he, hidx]
        · rw [restoreSnap_aiCursor]; simp
      · have h1' : 1 ≤ rest.length := by
          cases rest with
          | nil => exact absurd rfl hrest
          | cons a b => simp
        have h2' : ((rest.length : Int)) ≤ (c - 1) + 1 := by omega
        have h3' : c - 1 <
            ((restoreSnap t (t.aiHistory.get ⟨c.toNat, hcn⟩) (c - 1) n).aiHistory.length : Int) := by
          rw [restoreSnap_aiHistory]; omega
        obtain ⟨t', s, hrun, hidx', hsnap', hhist', hcur'⟩ :=
          ih (restoreSnap t (t.aiHistory.get ⟨c.toNat, hcn⟩) (c - 1) n) (c - 1)
            (restoreSnap_aiCursor _ _ _ _) h1' h2' h3'
        rw [restoreSnap_aiHistory] at hidx' hhist'
        refine ⟨t', s, ?_, ?_, hsnap', hhist', ?_⟩
        · simp only [List.map_cons, runHistOps, hstep]
          exact hrun
        · have he : c + 1 - ((n :: rest).length : Int) = (c - 1) + 1 - (rest.length : Int) := by
            omega
          rw [he]
          exact hidx'
        · rw [hcur']; omega

/-! ## Lemmas about ToggleSubtask and Undo/Redo branches -/

theorem toggleCompletedAt_get (l : List SubTask) (i : Nat) :
    (toggleCompletedAt l i)[i]? =
      (l[i]?).map (fun s => { s with completed := !s.completed }) := by
  induction l generalizing i with
  | nil => simp [toggleCompletedAt]
  | cons s rest ih =>
      cases i with
      | zero => simp [toggleCompletedAt]
      | succ k => simpa [toggleCompletedAt] using ih k

theorem toggleCompletedAt_length (l : List SubTask) (i : Nat) :
    (toggleCompletedAt l i).length = l.length := by
  induction l generalizing i with
  | nil => rfl
  | cons s rest ih =>
      cases i with
      | zero => rfl
      | succ k => simp [toggleCompletedAt, ih]

/-- The success branch of `toggle_subtask` written out. -/
theorem toggle_subtask_ok (t : Task) (idx : Int) (n : Nat)
    (h0 : 0 ≤ idx) (hlt : idx < (t.subtasks.length : Int)) :
    toggle_subtask (some t) idx n =
      (some { t with subtasks := toggleCompletedAt t.subtasks idx.toNat, updated_at := n },
       .ok { t with subtasks := toggleCompletedAt t.subtasks idx.toNat, updated_at := n }) := by
  simp only [toggle_subtask]
  rw [if_neg (by omega)]

theorem ai_undo_fst_cases (t : Task) (now : Nat) :
    (ai_undo (some t) now).fst = some t ∨
      ∃ snap, (ai_undo (some t) now).fst =
        some (restoreSnap t snap (t.aiCursor - 1) now) := by
  by_cases hc : t.aiCursor < 0
  · left; simp [ai_undo, hc]
  · cases hidx : pyIndex t.aiHistory t.aiCursor with
    | none => left; simp [ai_undo, hc, hidx]
    | some snap => right; exact ⟨snap, by simp [ai_undo, hc, hidx]⟩

theorem ai_redo_fst_cases (t : Task) (now : Nat) :
    (ai_redo (some t) now).fst = some t ∨
      ∃ snap, (ai_redo (some t) now).fst =
        some (restoreSnap t snap (t.aiCursor + 1) now) := by
  by_cases hc : (t.aiHistory.length : Int) ≤ t.aiCursor + 1
  · left; simp [ai_redo, hc]
  · cases hidx : pyIndex t.aiHistory (t.aiCursor + 1) with
    | none => left; simp [ai_redo, hc, hidx]
    | some snap => right; exact ⟨snap, by simp [ai_redo, hc, hidx]⟩

/-! ## Claim theorems -/

/-- C1: starting from a task with `aiHistory = []` and `aiCursor = -1`, after
any sequence of Edit/Undo/Redo calls the stored task still exists and
satisfies `-1 ≤ aiCursor ≤ len(aiHistory) - 1`. -/
theorem c1_cursor_invariant (t0 : Task) (h1 : t0.aiHistory = []) (h2 : t0.aiCursor = -1)
    (ops : List HistOp) :
    (runHistOps (some t0) ops).isSome = true ∧ cursorInvHolds (runHistOps (some t0) ops) := by
  have hinv : cursorInv t0 := by
    constructor <;> simp [h1, h2]
  obtain ⟨t', hrun, hinv'⟩ := runHistOps_some_inv ops t0 hinv
  rw [hrun]
  exact ⟨rfl, hinv'⟩

/-- Witness for C1: a fresh task and a concrete edit/undo/redo sequence. -/
theorem c1_cursor_invariant_witness :
    (freshTask.aiHistory = [] ∧ freshTask.aiCursor = -1) ∧
      (runHistOps (some freshTask) sampleOps).isSome = true ∧
      cursorInvHolds (runHistOps (some freshTask) sampleOps) :=
  ⟨by decide, c1_cursor_invariant freshTask (by decide) (by decide) sampleOps⟩

/-- C2: on an existing task (with a cursor within the invariant range), Edit
replaces the history with `history[0 .. cursor]` plus a snapshot of the
pre-edit editable fields, points the cursor at the pushed entry, and pushes
on every call; when the prompt matches no keyword the fixed
"Tuned for clarity." text is appended to the description (after `strip()`). -/
theorem c2_edit_pushes_snapshot (t : Task) (prompt : List Char) (now : Nat)
    (h : -1 ≤ t.aiCursor) :
    ai_edit_task (some t) prompt now =
      (some (editTaskCore t prompt now), .ok (editTaskCore t prompt now)) ∧
    (editTaskCore t prompt now).aiHistory =
      t.aiHistory.take (t.aiCursor + 1).toNat ++ [snapshotOf t] ∧
    (editTaskCore t prompt now).aiCursor =
      ((editTaskCore t prompt now).aiHistory.length : Int) - 1 ∧
    (anyKeyword prompt = false →
      (editTaskCore t prompt now).description = pyStrip (t.description ++ tunedSuffix) ∧
      tunedCore <:+ (editTaskCore t prompt now).description) := by
  refine ⟨rfl, ?_, rfl, ?_⟩
  · rw [editTaskCore_aiHistory, pyTakeTo_of_nonneg _ _ (by omega)]
  · intro hkw
    have hd := editTaskCore_description_noKw t prompt now hkw
    exact ⟨hd, hd ▸ tuned_suffix_pyStrip t.description⟩

/-- Witness for C2: the sample task and a prompt matching no keyword. -/
theorem c2_edit_pushes_snapshot_witness :
    (-1 ≤ sampleTask.aiCursor) ∧
    (ai_edit_task (some sampleTask) "hello".toList 5 =
      (some (editTaskCore sampleTask "hello".toList 5),
        .ok (editTaskCore sampleTask "hello".toList 5)) ∧
    (editTaskCore sampleTask "hello".toList 5).aiHistory =
      sampleTask.aiHistory.take (sampleTask.aiCursor + 1).toNat ++ [snapshotOf sampleTask] ∧
    (editTaskCore sampleTask "hello".toList 5).aiCursor =
      (((editTaskCore sampleTask "hello".toList 5).aiHistory.length : Int)) - 1 ∧
    (anyKeyword "hello".toList = false →
      (editTaskCore sampleTask "hello".toList 5).description =
        pyStrip (sampleTask.description ++ tunedSuffix) ∧
      tunedCore <:+ (editTaskCore sampleTask "hello".toList 5).description)) :=
  ⟨by decide, c2_edit_pushes_snapshot sampleTask "hello".toList 5 (by decide)⟩

/-- C3: for every task and every `n ≥ 1`, `n` Edit calls followed by `n`
Undo calls restore the editable fields {title, description, estimatedMinutes,
emoji, subtasks} to their values immediately before the first Edit. -/
theorem c3_edit_undo_roundtrip (t : Task) (es : List (List Char × Nat)) (us : List Nat)
    (h1 : 1 ≤ es.length) (h2 : es.length = us.length) :
    (runHistOps (some t)
        (es.map (fun e => HistOp.edit e.1 e.2) ++ us.map HistOp.undo)).map snapshotOf
      = some (snapshotOf t) := by
  obtain ⟨t1, snaps, hrun1, hhist, hhead, hlen, hcur⟩ := runHistOps_edits es t h1
  rw [runHistOps_append, hrun1]
  have hlenh : t1.aiHistory.length = (pyTakeTo t.aiHistory (t.aiCursor + 1)).length + snaps.length := by
    rw [hhist]; simp
  have hlen1 : (1 : Nat) ≤ us.length := h2 ▸ h1
  have hues : us.length = snaps.length := by omega
  have h2' : ((us.length : Int)) ≤ ((t1.aiHistory.length : Int) - 1) + 1 := by omega
  have h3' : (t1.aiHistory.length : Int) - 1 < (t1.aiHistory.length : Int) := by omega
  obtain ⟨t', s, hrun2, hidx, hsnap, hhist', hcur'⟩ :=
    runHistOps_undos us t1 ((t1.aiHistory.length : Int) - 1) hcur hlen1 h2' h3'
  rw [hrun2, Option.map_some']
  have hix : (t1.aiHistory.length : Int) - 1 + 1 - (us.length : Int) =
      (((pyTakeTo t.aiHistory (t.aiCursor + 1)).length : Nat) : Int) := by omega
  rw [hix, hhist, pyIndex_of_nonneg _ _ (by omega), Int.toNat_natCast,
    List.getElem?_append_right (le_refl _)] at hidx
  simp only [Nat.sub_self] at hidx
  rw [← List.head?_eq_getElem?, hhead] at hidx
  rw [hsnap]
  exact congrArg some (Option.some_injective _ hidx).symm

/-- Witness for C3: two edits then two undos on the sample task. -/
theorem c3_edit_undo_roundtrip_witness :
    (1 ≤ ([("make it simpler".toList, 1), ("add emoji".toList, 2)] : List (List Char × Nat)).length ∧
      ([("make it simpler".toList, 1), ("add emoji".toList, 2)] : List (List Char × Nat)).length =
        ([3, 4] : List Nat).length) ∧
    (runHistOps (some sampleTask)
        (([("make it simpler".toList, 1), ("add emoji".toList, 2)] : List (List Char × Nat)).map
            (fun e => HistOp.edit e.1 e.2) ++
          ([3, 4] : List Nat).map HistOp.undo)).map snapshotOf
      = some (snapshotOf sampleTask) :=
  ⟨by decide,
    c3_edit_undo_roundtrip sampleTask [("make it simpler".toList, 1), ("add emoji".toList, 2)]
      [3, 4] (by decide) (by decide)⟩

/-- C4 counterexample: a Patch against a task id that resolves to no document
does not fail with `NotFoundError` — at the concrete one-field patch it
succeeds with a null body (and performs no write). -/
theorem c4_patch_missing_counterexample :
    update_task none titlePatch 0 = (none, Except.ok none) := rfl

/-- C4 (amended): for every task id that resolves to no document, Patch does
not raise `NotFoundError`; it performs no write and returns success with a
null (absent) task, whatever fields the patch supplies. -/
theorem c4_patch_missing_amended (p : TaskUpdate) (now : Nat) :
    update_task none p now = (none, Except.ok none) := by
  by_cases h : p.isEmptyUpdate = true <;> simp [update_task, h]

/-- C5: a Patch supplying zero recognized fields on an existing task
succeeds, returns the current task unchanged, and performs no write — in
particular the stored `updated_at` (and every other field) is unchanged. -/
theorem c5_empty_patch_noop (t : Task) (p : TaskUpdate) (now : Nat)
    (h : p.isEmptyUpdate = true) :
    update_task (some t) p now = (some t, Except.ok (some t)) := by
  simp [update_task, h]

/-- Witness for C5: the all-unset patch on the sample task. -/
theorem c5_empty_patch_noop_witness :
    emptyPatch.isEmptyUpdate = true ∧
      update_task (some sampleTask) emptyPatch 7 = (some sampleTask, Except.ok (some sampleTask)) :=
  ⟨by decide, c5_empty_patch_noop sampleTask emptyPatch 7 (by decide)⟩

/-- C6: ToggleSubtask raises 404 `NotFoundError` when the task id resolves to
no document, raises 400 `OutOfRangeError` exactly when the index is outside
`[0, len(subtasks))` (leaving the stored task unchanged in both failure
cases), and otherwise flips `subtasks[index].completed`. -/
theorem c6_toggle_subtask_contract (t : Task) (idx : Int) (now : Nat) :
    toggle_subtask none idx now = (none, .error (.http 404 "Task not found".toList)) ∧
    ((idx < 0 ∨ (t.subtasks.length : Int) ≤ idx) →
      toggle_subtask (some t) idx now =
        (some t, .error (.http 400 "Invalid subtask index".toList))) ∧
    (0 ≤ idx → idx < (t.subtasks.length : Int) →
      ∃ t', toggle_subtask (some t) idx now = (some t', .ok t') ∧
        t'.subtasks[idx.toNat]?.map SubTask.completed =
          (t.subtasks[idx.toNat]?).map (fun s => !s.completed)) := by
  refine ⟨rfl, ?_, ?_⟩
  · intro h
    simp only [toggle_subtask]
    rw [if_pos h]
  · intro h0 hlt
    refine ⟨_, toggle_subtask_ok t idx now h0 hlt, ?_⟩
    show (toggleCompletedAt t.subtasks idx.toNat)[idx.toNat]?.map SubTask.completed = _
    rw [toggleCompletedAt_get]
    cases t.subtasks[idx.toNat]? <;> rfl

/-- Witness for C6: index 1 is in range for the sample task's three subtasks
and gets flipped, index 5 is rejected with 400 (spec scenario), a missing
task gives 404. -/
theorem c6_toggle_subtask_contract_witness :
    ((0 : Int) ≤ 1 ∧ (1 : Int) < (sampleTask.subtasks.length : Int) ∧
      ((5 : Int) < 0 ∨ (sampleTask.subtasks.length : Int) ≤ 5)) ∧
    toggle_subtask none 1 9 = (none, .error (.http 404 "Task not found".toList)) ∧
    toggle_subtask (some sampleTask) 5 9 =
      (some sampleTask, .error (.http 400 "Invalid subtask index".toList)) ∧
    (∃ t', toggle_subtask (some sampleTask) 1 9 = (some t', .ok t') ∧
      t'.subtasks[(1 : Int).toNat]?.map SubTask.completed =
        (sampleTask.subtasks[(1 : Int).toNat]?).map (fun s => !s.completed)) :=
  ⟨by decide, (c6_toggle_subtask_contract sampleTask 1 9).1,
    (c6_toggle_subtask_contract sampleTask 5 9).2.1 (by decide),
    (c6_toggle_subtask_contract sampleTask 1 9).2.2 (by decide) (by decide)⟩

/-- C7: toggling the same in-range index twice returns
`subtasks[index].completed` to its original value. -/
theorem c7_toggle_involutive (t : Task) (idx : Int) (n1 n2 : Nat)
    (h0 : 0 ≤ idx) (hlt : idx < (t.subtasks.length : Int)) :
    ∃ t1 t2, toggle_subtask (some t) idx n1 = (some t1, .ok t1) ∧
      toggle_subtask (some t1) idx n2 = (some t2, .ok t2) ∧
      t2.subtasks[idx.toNat]?.map SubTask.completed =
        (t.subtasks[idx.toNat]?).map SubTask.completed := by
  refine ⟨_, _, toggle_subtask_ok t idx n1 h0 hlt, toggle_subtask_ok _ idx n2 h0 ?_, ?_⟩
  · show idx < ((toggleCompletedAt t.subtasks idx.toNat).length : Int)
    rw [toggleCompletedAt_length]
    exact hlt
  · show (toggleCompletedAt (toggleCompletedAt t.subtasks idx.toNat) idx.toNat)[idx.toNat]?.map
        SubTask.completed = _
    rw [toggleCompletedAt_get, toggleCompletedAt_get]
    cases t.subtasks[idx.toNat]? <;> simp

/-- Witness for C7: toggling subtask 0 of the sample task twice. -/
theorem c7_toggle_involutive_witness :
    ((0 : Int) ≤ 0 ∧ (0 : Int) < (sampleTask.subtasks.length : Int)) ∧
    (∃ t1 t2, toggle_subtask (some sampleTask) 0 11 = (some t1, .ok t1) ∧
      toggle_subtask (some t1) 0 12 = (some t2, .ok t2) ∧
      t2.subtasks[(0 : Int).toNat]?.map SubTask.completed =
        (sampleTask.subtasks[(0 : Int).toNat]?).map SubTask.completed) :=
  ⟨by decide, c7_toggle_involutive sampleTask 0 11 12 (by decide) (by decide)⟩

/-- C8: Stop resets the TimerSession to
{idle, no startedAt, 0 elapsed, no subtask index} for every existing task,
whatever the prior timer state; in particular Start then Pause then Stop ends
at the reset state. -/
theorem c8_stop_resets_timer (t : Task) (i : Option Int) (e : Int) (n1 n2 n3 : Nat) :
    (timer_stop (some t) n3).fst.map Task.timerSession = some resetTimer ∧
    (timer_stop ((timer_pause ((timer_start (some t) i n1).fst) e n2).fst) n3).fst.map
        Task.timerSession = some resetTimer := by
  exact ⟨rfl, rfl⟩

/-- C9: every created task starts with `completed = false`, the timer at the
reset state, an empty AI history and cursor `-1`. -/
theorem c9_create_defaults (p : TaskCreate) (now : Nat) (_h : p.valid) :
    (create_task p now).completed = false ∧
    (create_task p now).timerSession = resetTimer ∧
    (create_task p now).aiHistory = [] ∧
    (create_task p now).aiCursor = -1 :=
  ⟨rfl, rfl, rfl, rfl⟩

/-- Witness for C9: the sample create payload is valid. -/
theorem c9_create_defaults_witness :
    sampleCreate.valid ∧
    ((create_task sampleCreate 3).completed = false ∧
      (create_task sampleCreate 3).timerSession = resetTimer ∧
      (create_task sampleCreate 3).aiHistory = [] ∧
      (create_task sampleCreate 3).aiCursor = -1) :=
  ⟨by decide, c9_create_defaults sampleCreate 3 (by decide)⟩

/-- C10: Undo and Redo on an existing task never rewrite `aiHistory`, and
leave `userId`, `completed`, `voiceReminder`, `timerSession` and `created_at`
untouched as well — whether they act or are no-ops, only the snapshotted
editable fields, `aiCursor` and `updated_at` are written. -/
theorem c10_undo_redo_frame (t : Task) (now : Nat) :
    ((ai_undo (some t) now).fst.map Task.aiHistory = some t.aiHistory ∧
      (ai_undo (some t) now).fst.map
          (fun u => (u.userId, u.completed, u.voiceReminder, u.timerSession, u.created_at)) =
        some (t.userId, t.completed, t.voiceReminder, t.timerSession, t.created_at)) ∧
    ((ai_redo (some t) now).fst.map Task.aiHistory = some t.aiHistory ∧
      (ai_redo (some t) now).fst.map
          (fun u => (u.userId, u.completed, u.voiceReminder, u.timerSession, u.created_at)) =
        some (t.userId, t.completed, t.voiceReminder, t.timerSession, t.created_at)) := by
  constructor
  · rcases ai_undo_fst_cases t now with h | ⟨snap, h⟩ <;> rw [h] <;> exact ⟨rfl, rfl⟩
  · rcases ai_redo_fst_cases t now with h | ⟨snap, h⟩ <;> rw [h] <;> exact ⟨rfl, rfl⟩

end StepWize
